import Mathlib

/-!
Verification of the nestjs-sqs-transporter core against its specification.

This file shallowly embeds the envelope codec (SqsSerializer / SqsDeserializer),
the S3 large-message subsystem (S3LargeMessageHandler), the batch producer path
(ClientSqs) and the consumer loop (ServerSqs) as executable Lean definitions,
and proves or refutes the frozen claims about them.

Modelling conventions:
- JSON values are an inductive `Json` (numbers as integers; JS object literals
  with duplicate keys are normalised with later-assignment-wins, and fields
  whose value is `undefined` are dropped, as `JSON.stringify` does).
- A wire body string is represented together with its `JSON.parse` outcome:
  `none`/`nonJson` for strings on which `JSON.parse` throws, `some j`/`parsed j`
  for strings parsing to the value `j`.  `JSON.stringify` is implemented
  concretely (`jsonStringify`); `stringify` followed by `parse` is the identity
  on the abstract values, so codec logic is stated on the parse outcomes.
- Asynchronous I/O (S3 calls, the SQS producer, handler invocation) is
  modelled by explicit call traces and by oracles giving each call its outcome;
  JS exceptions are `Except` errors.
-/

/-- Abstract JSON value.  Numbers are modelled as integers (no claim depends
on non-integral numerics).  Object fields are an association list in insertion
order. -/
inductive Json where
  | null : Json
  | bool : Bool → Json
  | num  : Int → Json
  | str  : String → Json
  | arr  : List Json → Json
  | obj  : List (String × Json) → Json

/-- First-match lookup in an object field list (lists produced by our
constructors have unique keys). -/
def jLookup : List (String × Json) → String → Option Json
  | [], _ => none
  | (k, v) :: rest, key => if k = key then some v else jLookup rest key

/-- A canonical array index: JS `arr[k]` dereferences the element only when
`k` is the canonical decimal representation of an index. -/
def canonIdx (k : String) : Option Nat :=
  match k.toNat? with
  | some n => if toString n = k then some n else none
  | none => none

/-- JS property access `v[k]` that can throw: on `null` it raises a
`TypeError` (modelled as `Except.error`), on objects it is field lookup, on
arrays it is canonical-index access, and on primitives it yields `undefined`
(modelled as `none`). -/
def jsGetProp : Json → String → Except Unit (Option Json)
  | .null, _ => .error ()
  | .obj kvs, k => .ok (jLookup kvs k)
  | .arr xs, k =>
      .ok (match canonIdx k with
           | some i => xs.get? i
           | none => none)
  | _, _ => .ok none

/-- Total JS property access for receivers already known to be non-null
(returns `undefined` as `none`). -/
def jsGetPropTotal (j : Json) : String → Option Json :=
  fun k => match jsGetProp j k with
  | .ok v => v
  | .error _ => none

/-- Insert-or-overwrite one key of a JS object literal under construction
(later assignments to the same key win, keeping the original position). -/
def jsUpsert : List (String × Option Json) → String → Option Json →
    List (String × Option Json)
  | [], k, v => [(k, v)]
  | (k0, v0) :: rest, k, v =>
      if k0 = k then (k0, v) :: rest else (k0, v0) :: jsUpsert rest k v

/-- Build a JS object literal from the written entries: duplicate keys are
collapsed with later-wins, then `JSON.stringify` drops fields holding
`undefined` (`none`). -/
def jsObjLit (entries : List (String × Option Json)) : Json :=
  .obj (((entries.foldl (fun acc e => jsUpsert acc e.1 e.2) []).filterMap
    (fun e => e.2.map (fun v => (e.1, v)))))

/-- Hexadecimal digit character. -/
def hexDigit (n : Nat) : Char :=
  if n < 10 then Char.ofNat (48 + n) else Char.ofNat (87 + n)

/-- Two-digit lowercase hex rendering of a byte value. -/
def hex2 (n : Nat) : String :=
  String.singleton (hexDigit (n / 16)) ++ String.singleton (hexDigit (n % 16))

/-- JSON string escaping of one character, as `JSON.stringify` performs it. -/
def jsEscapeChar (c : Char) : String :=
  if c = '\"' then "\\\""
  else if c = '\\' then "\\\\"
  else if c = '\n' then "\\n"
  else if c = '\r' then "\\r"
  else if c = '\t' then "\\t"
  else if c.toNat = 8 then "\\b"
  else if c.toNat = 12 then "\\f"
  else if c.toNat < 32 then "\\u00" ++ hex2 c.toNat
  else String.singleton c

/-- JSON string literal rendering with escaping. -/
def jsQuote (s : String) : String :=
  "\"" ++ String.join (s.data.map jsEscapeChar) ++ "\""

mutual

/-- Concrete `JSON.stringify` on abstract JSON values. -/
def jsonStringify : Json → String
  | .null => "null"
  | .bool true => "true"
  | .bool false => "false"
  | .num n => toString n
  | .str s => jsQuote s
  | .arr xs => "[" ++ jsonStringifyList xs ++ "]"
  | .obj kvs => "\x7b" ++ jsonStringifyObj kvs ++ "\x7d"

/-- Comma-separated rendering of array elements. -/
def jsonStringifyList : List Json → String
  | [] => ""
  | [x] => jsonStringify x
  | x :: y :: rest => jsonStringify x ++ "," ++ jsonStringifyList (y :: rest)

/-- Comma-separated rendering of object fields. -/
def jsonStringifyObj : List (String × Json) → String
  | [] => ""
  | [(k, v)] => jsQuote k ++ ":" ++ jsonStringify v
  | (k, v) :: e :: rest =>
      jsQuote k ++ ":" ++ jsonStringify v ++ "," ++ jsonStringifyObj (e :: rest)

end

/-! ## Constants (src/src/constants.ts) -/

/-- S3_DEFAULT_THRESHOLD = 240 * 1024. -/
def S3_DEFAULT_THRESHOLD : Nat := 240 * 1024

/-- S3_DEFAULT_KEY_PREFIX. -/
def s3DefaultKeyPref : String := "sqs-messages/"

/-- S3_POINTER_CLASS, the fixed pointer class tag. -/
def s3PointerClassTag : String := "software.amazon.payloadoffloading.PayloadS3Pointer"

/-- S3_POINTER_KEY, the default simple-format pointer field name. -/
def S3_POINTER_KEY : String := "__s3pointer"

/-- NO_EVENT_HANDLER warning text. -/
def NO_EVENT_HANDLER : String :=
  "There is no matching event handler defined in the remote service."

/-- MESSAGE_PATTERN_HEADER attribute name. -/
def MESSAGE_PATTERN_HEADER : String := "messagePattern"

/-- CORRELATION_ID_HEADER attribute name. -/
def CORRELATION_ID_HEADER : String := "correlationId"

/-! ## Envelope codec (src/src/serializers/sqs.serializer.ts, src/unnamed/part_005) -/

/-- The outcome of reading a wire body string: `absent` when the body is
missing or empty (JS `!body`), `nonJson s` when `JSON.parse(s)` throws, and
`parsed j` when the body parses to the JSON value `j`. -/
inductive ParsedBody where
  | absent : ParsedBody
  | nonJson : String → ParsedBody
  | parsed : Json → ParsedBody

/-- Message attributes of a wire message, as read through
`MessageAttributes?.[name]?.StringValue` (absent levels collapse to `none`). -/
structure MessageAttrs where
  messagePattern : Option String
  correlationId : Option String

/-- JS `x || dflt` on a `string | undefined` value: the default is taken when
the value is absent or the empty string (falsy). -/
def jsOrStr (o : Option String) (dflt : String) : String :=
  match o with
  | some s => if s = "" then dflt else s
  | none => dflt

/-- SqsSerializer configuration (its `patternKey` field after the constructor
applied the default). -/
structure SqsSerializer where
  patternKey : String

/-- The SqsSerializer constructor: `options?.patternKey ?? "pattern"`. -/
def SqsSerializer.new (patternKey : Option String) : SqsSerializer :=
  ⟨patternKey.getD "pattern"⟩

/-- The packet handed to `serialize` (`id` is optional; `data` is any
JSON-serializable value, including null). -/
structure SqsSerializedMessage where
  pattern : String
  data : Json
  id : Option String

/-- `SqsSerializer.serialize`: builds the object literal
`[patternKey]: pattern, data: data, id: id` and stringifies it; the embedding
returns the parsed form of the emitted JSON text (object-literal duplicate
keys collapse later-wins, `undefined` fields are dropped). -/
def SqsSerializer.serialize (self : SqsSerializer) (packet : SqsSerializedMessage) : Json :=
  jsObjLit
    [(self.patternKey, some (.str packet.pattern)),
     ("data", some packet.data),
     ("id", packet.id.map .str)]

/-- The envelope produced by `SqsDeserializer.deserialize` (`pattern` is
whatever value the pattern-key field held; `id` is absent when the
correlation id was undefined). -/
structure Envelope where
  pattern : Json
  data : Json
  id : Option Json

/-- Errors `deserialize` can throw: the empty-body error, or a `TypeError`
from dereferencing a field of a parsed `null` body. -/
inductive DeserErr where
  | emptyBody : DeserErr
  | typeError : DeserErr

/-- SqsDeserializer configuration. -/
structure SqsDeserializer where
  patternKey : String

/-- The SqsDeserializer constructor: `options?.patternKey ?? "pattern"`. -/
def SqsDeserializer.new (patternKey : Option String) : SqsDeserializer :=
  ⟨patternKey.getD "pattern"⟩

/-- `SqsDeserializer.deserialize` (src/unnamed/part_005 lines 33-82): throws
on an empty body; treats a non-JSON body as opaque string data with the
pattern sourced from the message attribute (falling back to "unknown"); when
the parsed object carries the pattern-key field, takes the pattern from it,
the correlation id from the attribute or else `parsed.id`, and the data from
`parsed.data ?? parsed` under the default pattern key or the whole parsed
object otherwise; when the pattern-key field is absent, the whole parsed
value becomes the data. -/
def SqsDeserializer.deserialize (self : SqsDeserializer) (attrs : MessageAttrs)
    (body : ParsedBody) : Except DeserErr Envelope :=
  match body with
  | .absent => .error .emptyBody
  | .nonJson s =>
      .ok ⟨.str (jsOrStr attrs.messagePattern "unknown"), .str s, none⟩
  | .parsed j =>
      match jsGetProp j self.patternKey with
      | .error _ => .error .typeError
      | .ok none =>
          .ok ⟨.str (jsOrStr attrs.messagePattern "unknown"), j, none⟩
      | .ok (some patternValue) =>
          let parsedId : Option Json := jsGetPropTotal j "id"
          let correlationId : Option Json :=
            match attrs.correlationId with
            | some s => if s = "" then parsedId else some (.str s)
            | none => parsedId
          let dataV : Json :=
            if self.patternKey = "pattern" then
              match jsGetPropTotal j "data" with
              | none => j
              | some .null => j
              | some v => v
            else j
          .ok ⟨patternValue, dataV, correlationId⟩

/-! ## Pointer codec (src/src/features/s3-large-message.ts) -/

/-- The `S3PointerFormat` configuration. -/
inductive S3PointerFormat where
  | awsExtended : S3PointerFormat
  | simple : S3PointerFormat
  | auto : S3PointerFormat
deriving DecidableEq

/-- The internal normalized pointer.  The extended-format parser copies the
`s3BucketName`/`s3Key` properties without validation, so either field may be
`undefined` (`none`) or any JSON value. -/
structure NormalizedPointer where
  bucket : Option Json
  key : Option Json

/-- `parseSimpleFormat`: the configured pointer-key field must hold an object
with string `bucket` and string `key`; any other shape yields no match.
Outer receivers that are not non-null objects (JS `typeof`) yield no match;
array receivers are dereferenced through canonical-index property access. -/
def parseSimpleFormat (pointerKey : String) (parsed : Json) : Option NormalizedPointer :=
  match parsed with
  | .obj kvs =>
      match jLookup kvs pointerKey with
      | some sp => parseSimpleInner sp
      | none => none
  | .arr xs =>
      match canonIdx pointerKey with
      | some i =>
          match xs.get? i with
          | some sp => parseSimpleInner sp
          | none => none
      | none => none
  | _ => none
where
  /-- The `typeof s3Pointer === 'object' && s3Pointer !== null` guard plus the
  string checks on `bucket` and `key`. -/
  parseSimpleInner : Json → Option NormalizedPointer
  | .obj inner =>
      match jLookup inner "bucket" with
      | some (.str b) =>
          match jLookup inner "key" with
          | some (.str k) => some ⟨some (.str b), some (.str k)⟩
          | _ => none
      | _ => none
  | _ => none

/-- `parseAwsExtendedFormat`: first the 1-element-array format (property
access on the element can throw when the element is JSON null), then the bare
object format; an `@class` equal to the fixed tag is the only requirement,
and the `s3BucketName`/`s3Key` properties are copied without validation. -/
def parseAwsExtendedFormat (parsed : Json) : Except Unit (Option NormalizedPointer) := do
  let fromArr : Option NormalizedPointer ←
    match parsed with
    | .arr [item] => do
        let cls ← jsGetProp item "@class"
        match cls with
        | some (.str s) =>
            if s = s3PointerClassTag then do
              let b ← jsGetProp item "s3BucketName"
              let k ← jsGetProp item "s3Key"
              pure (some ⟨b, k⟩)
            else pure none
        | _ => pure none
    | _ => pure none
  match fromArr with
  | some p => pure (some p)
  | none =>
      match parsed with
      | .obj kvs =>
          match jLookup kvs "@class" with
          | some (.str s) =>
              if s = s3PointerClassTag then
                pure (some ⟨jLookup kvs "s3BucketName", jLookup kvs "s3Key"⟩)
              else pure none
          | _ => pure none
      | .arr _ => pure none
      | _ => pure none

/-- `parseS3Pointer`: parses the body (a parse failure yields null), tries
the extended format when the mode allows it, then the simple format; the
whole block sits in a try/catch, so a property-access throw inside the
extended parser yields null without attempting the simple format. -/
def parseS3Pointer (fmt : S3PointerFormat) (pointerKey : String)
    (body : Option Json) : Option NormalizedPointer :=
  match body with
  | none => none
  | some parsed =>
      let ext : Except Unit (Option NormalizedPointer) :=
        if fmt = .awsExtended ∨ fmt = .auto then parseAwsExtendedFormat parsed
        else .ok none
      match ext with
      | .error _ => none
      | .ok (some p) => some p
      | .ok none =>
          if fmt = .simple ∨ fmt = .auto then parseSimpleFormat pointerKey parsed
          else none

/-- `isS3Pointer`: true iff `parseS3Pointer` yields a match. -/
def isS3Pointer (fmt : S3PointerFormat) (pointerKey : String)
    (body : Option Json) : Bool :=
  (parseS3Pointer fmt pointerKey body).isSome

/-- `createPointerMessage`, at the JSON-value level: the extended-array
format when the mode is aws-extended, otherwise the simple format under the
configured pointer-key field. -/
def createPointerMessageAst (fmt : S3PointerFormat) (pointerKey : String)
    (bucket key : String) : Json :=
  match fmt with
  | .awsExtended =>
      .arr [.obj [("@class", .str s3PointerClassTag),
                  ("s3BucketName", .str bucket),
                  ("s3Key", .str key)]]
  | _ => .obj [(pointerKey, .obj [("bucket", .str bucket), ("key", .str key)])]

/-- `createPointerMessage`: the JSON text of the pointer. -/
def createPointerMessage (fmt : S3PointerFormat) (pointerKey : String)
    (bucket key : String) : String :=
  jsonStringify (createPointerMessageAst fmt pointerKey bucket key)

/-! ## Large-payload offload gateway (src/src/features/s3-large-message.ts) -/

/-- An S3 call issued by the handler.  `putObject` carries bucket, key, body
and content type; `getObject` carries the (unvalidated) pointer fields. -/
inductive S3Call where
  | putObject : String → String → String → String → S3Call
  | getObject : Option Json → Option Json → S3Call

/-- `S3LargeMessageOptions` together with the constructor defaulting
(threshold, key prefix, pointer format, pointer key). -/
structure S3LargeMessageOptions where
  bucket : String
  threshold : Option Nat
  keyPref : Option String
  pointerFormat : Option S3PointerFormat
  pointerKey : Option String

/-- Effective threshold: `options.threshold ?? S3_DEFAULT_THRESHOLD`. -/
def S3LargeMessageOptions.thresholdEff (o : S3LargeMessageOptions) : Nat :=
  o.threshold.getD S3_DEFAULT_THRESHOLD

/-- Effective key prefix: `options.keyPrefix ?? S3_DEFAULT_KEY_PREFIX`. -/
def S3LargeMessageOptions.keyPrefEff (o : S3LargeMessageOptions) : String :=
  o.keyPref.getD s3DefaultKeyPref

/-- Effective pointer format: `options.pointerFormat ?? 'auto'`. -/
def S3LargeMessageOptions.fmtEff (o : S3LargeMessageOptions) : S3PointerFormat :=
  o.pointerFormat.getD .auto

/-- Effective pointer key: `options.pointerKey ?? S3_POINTER_KEY`. -/
def S3LargeMessageOptions.pkEff (o : S3LargeMessageOptions) : String :=
  o.pointerKey.getD S3_POINTER_KEY

/-- `wrapIfLarge`: measures the UTF-8 byte length of the message; at or below
the threshold the message is returned unchanged with no S3 call; above it,
one `PutObjectCommand` uploads the body verbatim under the fresh prefixed key
(`keyPrefix` + the uuid drawn for this call) with a JSON content type, and
the pointer text is returned.  Returns the result string paired with the list
of S3 calls performed. -/
def wrapIfLarge (o : S3LargeMessageOptions) (uuid : String)
    (message : String) : String × List S3Call :=
  if message.utf8ByteSize ≤ o.thresholdEff then
    (message, [])
  else
    let s3Key := o.keyPrefEff ++ uuid
    (createPointerMessage o.fmtEff o.pkEff o.bucket s3Key,
     [S3Call.putObject o.bucket s3Key message "application/json"])

/-- A wire body string together with its `JSON.parse` outcome (`none` when
parsing throws). -/
structure StrWithParse where
  s : String
  parse : Option Json

/-- Outcome of the S3 `GetObjectCommand` round trip:
`failure` is a store error thrown by the client, `success b` a response whose
`Body?.transformToString()` yielded `b` (`none` models a missing body). -/
inductive S3GetResult where
  | failure : String → S3GetResult
  | success : Option String → S3GetResult

/-- Errors out of `unwrapIfPointer`: an underlying store error propagated
unmodified, or the dedicated read error naming the offending key
(`Failed to read S3 object: ...`). -/
inductive UnwrapErr where
  | storeError : String → UnwrapErr
  | readError : Option Json → UnwrapErr

/-- `unwrapIfPointer`: when `parseS3Pointer` yields no match the body is
returned unchanged with no S3 call; otherwise one `GetObjectCommand` is sent
at the pointer's bucket/key — a store failure propagates unmodified, a
missing or empty (falsy) downloaded body raises the dedicated read error
naming the key, and otherwise the downloaded content is returned. -/
def unwrapIfPointer (o : S3LargeMessageOptions)
    (s3get : Option Json → Option Json → S3GetResult)
    (message : StrWithParse) : Except UnwrapErr String × List S3Call :=
  match parseS3Pointer o.fmtEff o.pkEff message.parse with
  | none => (.ok message.s, [])
  | some p =>
      let calls := [S3Call.getObject p.bucket p.key]
      match s3get p.bucket p.key with
      | .failure e => (.error (.storeError e), calls)
      | .success none => (.error (.readError p.key), calls)
      | .success (some body) =>
          if body = "" then (.error (.readError p.key), calls)
          else (.ok body, calls)

/-! ## Producer path (src/src/client/sqs.client.ts) -/

/-- The client options relevant to serializer construction. -/
structure SqsClientOptions where
  serializer : Option SqsSerializer
  patternKey : Option String

/-- The client constructor's serializer selection (sqs.client.ts lines 30-31):
`(options.serializer as SqsSerializer) ?? new SqsSerializer()` — note that
`options.patternKey` is not forwarded to the serializer it constructs. -/
def ClientSqs.serializerOf (options : SqsClientOptions) : SqsSerializer :=
  options.serializer.getD (SqsSerializer.new none)

/-- The body built by `sendMessage` for a send: the configured serializer
applied to the packet (the message id is always attached). -/
def ClientSqs.sendBody (options : SqsClientOptions) (pattern : String)
    (data : Json) (messageId : String) : Json :=
  (ClientSqs.serializerOf options).serialize ⟨pattern, data, some messageId⟩

/-- Modelled from the spec: the `emitBatch` client method is code of this
repository that is absent from src/ (only its unit tests reference it; the
`ClientSqs` under src/ lacks the method).  Per spec section 4.7 it partitions
the outbound list into fixed-size chunks of 10.  `chunkGo` is that partition,
written with structural fuel (each step consumes at least one element, so
fuel equal to the list length is always enough). -/
def chunkGo {α : Type} : Nat → List α → List (List α)
  | _, [] => []
  | 0, _ :: _ => []
  | fuel + 1, x :: xs => (x :: xs).take 10 :: chunkGo fuel ((x :: xs).drop 10)

/-- Modelled from the spec: the chunks-of-10 partition of a list. -/
def chunk10 {α : Type} (l : List α) : List (List α) := chunkGo l.length l

/-- Modelled from the spec: `emitBatch` submits each chunk as one underlying
batch call (the `producer.send` oracle), concatenates the per-chunk results
in input order, and aborts with the first failing chunk's error. -/
def emitBatch {M R E : Type} (send : List M → Except E (List R))
    (messages : List M) : Except E (List R) :=
  go (chunk10 messages)
where
  /-- Sequential submission over the chunk list. -/
  go : List (List M) → Except E (List R)
  | [] => .ok []
  | c :: cs => do
      let r ← send c
      let rest ← go cs
      .ok (r ++ rest)

/-- Modelled from the spec: the chunks `emitBatch` actually submits before
stopping — every chunk up to and including the first one whose batch call
fails. -/
def emitBatchCalls {M R E : Type} (send : List M → Except E (List R))
    (messages : List M) : List (List M) :=
  go (chunk10 messages)
where
  /-- Attempted chunk prefix. -/
  go : List (List M) → List (List M)
  | [] => []
  | c :: cs =>
      match send c with
      | .ok _ => c :: go cs
      | .error _ => [c]

/-! ## Consumer loop (src/unnamed/part_007, `ServerSqs`) -/

/-- Observable actions of the server, in program order: in-flight counter
updates, warnings, error logging, metric recording, the shutdown loop's
100 ms sleeps and timeout warning, stopping the consumer, and the final
close log. -/
inductive Ev where
  | incActive : Ev
  | decActive : Ev
  | warnLog : String → Ev
  | logErrorStack : String → Ev
  | metricProcessedSuccess : Ev
  | metricDurationSuccess : Ev
  | metricProcessedError : Ev
  | metricDurationError : Ev
  | sleep : Ev
  | warnTimeout : Nat → Ev
  | stopConsumer : Ev
  | logClosed : Ev
deriving DecidableEq

/-- A processing error (message text of the thrown JS error). -/
abbrev JsErr := String

/-- A handler found in the registry: its `isEventHandler` marker and the
awaited/drained outcome of invoking it on this message (a rejected promise or
stream error is `Except.error`). -/
structure FoundHandler where
  isEventHandler : Bool
  result : Except JsErr Unit

/-- Server configuration relevant to per-message processing. -/
structure ServerCfg where
  hasS3 : Bool

/-- The outcomes of the suspending sub-calls of one `handleMessage`
invocation: the result of `s3Handler.unwrapIfPointer` (consulted only when
the S3 handler is configured), the result of the deserializer on the
unwrapped message, and the external handler registry
(`getHandlerByPattern`). -/
structure StepEnv where
  unwrapResult : Except JsErr String
  deserResult : Except JsErr Envelope
  lookup : Json → Option FoundHandler

/-- The unwrap step: `message.Body ?? ''` passed through the S3 handler when
one is configured, the body unchanged otherwise. -/
def unwrapStep (cfg : ServerCfg) (env : StepEnv) (body : String) :
    Except JsErr String :=
  if cfg.hasS3 then env.unwrapResult else .ok body

/-- The warning text logged when no handler matches the pattern. -/
def noHandlerWarn (pattern : Json) : String :=
  NO_EVENT_HANDLER ++ " Pattern: " ++ jsonStringify pattern

/-- The try-block of `handleMessage` (part_007 lines 272-330): unwrap,
deserialize, look up the handler; a missing handler logs the no-handler
warning and returns normally; an event handler goes through `handleEvent`
and a message handler is awaited and its observable drained — either way the
dispatch outcome is awaited; on success the success and duration metrics are
recorded.  Returns the block's outcome and its emitted events. -/
def handleMessageTry (cfg : ServerCfg) (env : StepEnv) (body : String) :
    Except JsErr Unit × List Ev :=
  match unwrapStep cfg env body with
  | .error e => (.error e, [])
  | .ok _ =>
      match env.deserResult with
      | .error e => (.error e, [])
      | .ok dm =>
          match env.lookup dm.pattern with
          | none => (.ok (), [.warnLog (noHandlerWarn dm.pattern)])
          | some h =>
              match h.result with
              | .error e => (.error e, [])
              | .ok _ =>
                  (.ok (), [.metricProcessedSuccess, .metricDurationSuccess])

/-- `handleMessage` (part_007 lines 259-358): increments the in-flight
counter, runs the try-block inside the observability span (the span wrapper
invokes the function and propagates its outcome on every path), and on an
exception logs the error with its stack, records the failure metrics and
re-throws; the `finally` decrements the counter on success and failure
alike. -/
def handleMessage (cfg : ServerCfg) (env : StepEnv) (body : String) :
    Except JsErr Unit × List Ev :=
  match handleMessageTry cfg env body with
  | (.ok _, tr) => (.ok (), .incActive :: (tr ++ [.decActive]))
  | (.error e, tr) =>
      (.error e,
       .incActive ::
         (tr ++ [.logErrorStack e, .metricProcessedError, .metricDurationError,
                 .decActive]))

/-- The drain loop of `close` (part_007 lines 237-239): while the in-flight
counter (a function of the elapsed milliseconds) is positive and the timeout
has not elapsed, sleep 100 ms.  Structured with fuel; `close` supplies more
fuel than the timeout can consume, so the embedding is exact.  Returns the
sleeps performed and the final elapsed time. -/
def closeLoop (active : Nat → Nat) (timeout : Nat) :
    Nat → Nat → List Ev × Nat
  | 0, elapsed => ([], elapsed)
  | fuel + 1, elapsed =>
      if 0 < active elapsed ∧ elapsed < timeout then
        let r := closeLoop active timeout fuel (elapsed + 100)
        (.sleep :: r.1, r.2)
      else ([], elapsed)

/-- `close` (part_007 lines 232-254): resolves the shutdown timeout
(`options.shutdownTimeoutMs ?? 30000`), waits for the in-flight counter to
drain — polling every 100 ms, up to the timeout —, logs the timeout warning
with the remaining count when messages are still in flight, then stops the
consumer (when one is active) and logs the close.  `active` gives the
in-flight counter as observed after each elapsed duration. -/
def close (active : Nat → Nat) (shutdownTimeoutMs : Option Nat)
    (hasConsumer : Bool) : List Ev :=
  let timeout := shutdownTimeoutMs.getD 30000
  let r := closeLoop active timeout (timeout / 100 + 1) 0
  r.1
    ++ (if 0 < active r.2 then [.warnTimeout (active r.2)] else [])
    ++ (if hasConsumer then [.stopConsumer] else [])
    ++ [.logClosed]

/-- The ordering property claim C3 asserts of `close`: stopping the consumer
comes first, before any drain-loop sleep. -/
def stopPrecedesSleeps (tr : List Ev) : Prop :=
  ∀ i j : Nat, tr.get? i = some .stopConsumer → tr.get? j = some .sleep → i < j

/-! ## Claim C1: envelope round-trip -/

/-- C1 (counterexample): with `data = null` the round-trip fails — the
deserializer's `parsed.data ?? parsed` fallback re-fires on JSON null, so the
decoded data is the entire envelope object, not null. -/
theorem c1_envelope_roundtrip_cex :
    (SqsDeserializer.new none).deserialize ⟨none, none⟩
        (.parsed ((SqsSerializer.new none).serialize ⟨"p", Json.null, none⟩))
      = .ok ⟨Json.str "p",
             Json.obj [("pattern", Json.str "p"), ("data", Json.null)], none⟩
    ∧ (SqsDeserializer.new none).deserialize ⟨none, none⟩
        (.parsed ((SqsSerializer.new none).serialize ⟨"p", Json.null, none⟩))
      ≠ .ok ⟨Json.str "p", Json.null, none⟩ := by
  refine ⟨rfl, ?_⟩
  intro h
  have hd := congrArg
    (fun x => match x with
      | Except.ok (env : Envelope) => env.data
      | Except.error _ => Json.null) h
  exact Json.noConfusion hd

/-- C1 (amended): for every pattern and every JSON-serializable data value
other than null, decoding the wire message whose body is the encoding of
the pair under the default pattern-key configuration and with no metadata
attributes yields exactly that pattern and data; for null data the decoded
data is the whole envelope object instead. -/
theorem c1_envelope_roundtrip (p : String) (d : Json) (hd : d ≠ Json.null) :
    (SqsDeserializer.new none).deserialize ⟨none, none⟩
        (.parsed ((SqsSerializer.new none).serialize ⟨p, d, none⟩))
      = .ok ⟨Json.str p, d, none⟩ := by
  cases d with
  | null => exact absurd rfl hd
  | bool b => rfl
  | num n => rfl
  | str s => rfl
  | arr xs => rfl
  | obj kvs => rfl

/-- C1 witness: concrete round-trip at pattern ORDER_CREATED with an object
payload. -/
theorem c1_envelope_roundtrip_witness :
    (Json.obj [("id", Json.str "123")] ≠ Json.null)
    ∧ (SqsDeserializer.new none).deserialize ⟨none, none⟩
        (.parsed ((SqsSerializer.new none).serialize
          ⟨"ORDER_CREATED", Json.obj [("id", Json.str "123")], none⟩))
      = .ok ⟨Json.str "ORDER_CREATED", Json.obj [("id", Json.str "123")], none⟩ :=
  ⟨fun h => Json.noConfusion h,
   c1_envelope_roundtrip "ORDER_CREATED" _ (fun h => Json.noConfusion h)⟩

/-! ## Claim C2: malformed pointer shapes -/

/-- C2 (counterexample): an extended-shape bare object — and likewise a
1-element array wrapping it — whose `@class` equals the pointer class tag
but which has no `s3BucketName`/`s3Key` fields at all is still accepted:
`parseS3Pointer` yields a match with both fields undefined and `isPointer`
is true, contradicting the claim that such shapes are not pointers. -/
theorem c2_malformed_pointer_cex :
    (parseS3Pointer .auto S3_POINTER_KEY
        (some (Json.obj [("@class", Json.str s3PointerClassTag)]))
      = some ⟨none, none⟩
    ∧ isS3Pointer .auto S3_POINTER_KEY
        (some (Json.obj [("@class", Json.str s3PointerClassTag)])) = true)
    ∧ (parseS3Pointer .auto S3_POINTER_KEY
        (some (Json.arr [Json.obj [("@class", Json.str s3PointerClassTag)]]))
      = some ⟨none, none⟩
    ∧ isS3Pointer .auto S3_POINTER_KEY
        (some (Json.arr [Json.obj [("@class", Json.str s3PointerClassTag)]]))
      = true) :=
  ⟨⟨rfl, rfl⟩, ⟨rfl, rfl⟩⟩

/-- Soundness of the simple-format parser: every match comes from a body
whose configured pointer-key field holds an object with string `bucket` and
string `key`, and the match carries exactly those strings — hence any simple
shape with a missing or non-string bucket or key yields no match. -/
theorem parseSimpleFormat_sound (pk : String) (parsed : Json)
    (p : NormalizedPointer) (h : parseSimpleFormat pk parsed = some p) :
    ∃ inner b k, jsGetPropTotal parsed pk = some (.obj inner)
      ∧ jLookup inner "bucket" = some (.str b)
      ∧ jLookup inner "key" = some (.str k)
      ∧ p = ⟨some (.str b), some (.str k)⟩ := by
  have hInner : ∀ sp : Json, parseSimpleFormat.parseSimpleInner sp = some p →
      ∃ inner b k, sp = .obj inner
        ∧ jLookup inner "bucket" = some (.str b)
        ∧ jLookup inner "key" = some (.str k)
        ∧ p = ⟨some (.str b), some (.str k)⟩ := by
    intro sp hsp
    unfold parseSimpleFormat.parseSimpleInner at hsp
    split at hsp
    · rename_i inner
      split at hsp
      · rename_i b hb
        split at hsp
        · rename_i k hk
          exact ⟨inner, b, k, rfl, hb, hk, (Option.some.inj hsp).symm⟩
        · exact Option.noConfusion hsp
      · exact Option.noConfusion hsp
    · exact Option.noConfusion hsp
  unfold parseSimpleFormat at h
  split at h
  · rename_i kvs0
    split at h
    · rename_i sp hq
      obtain ⟨inner, b, k, hsp, hb, hk, hp⟩ := hInner sp h
      exact ⟨inner, b, k, by simp [jsGetPropTotal, jsGetProp, hq, hsp], hb, hk, hp⟩
    · exact Option.noConfusion h
  · rename_i xs0
    split at h
    · rename_i i hi
      split at h
      · rename_i sp hx
        obtain ⟨inner, b, k, hsp, hb, hk, hp⟩ := hInner sp h
        have hx2 : xs0[i]? = some sp := by simpa using hx
        exact ⟨inner, b, k, by simp [jsGetPropTotal, jsGetProp, hi, hx2, hsp], hb, hk, hp⟩
      · exact Option.noConfusion h
    · exact Option.noConfusion h
  · exact Option.noConfusion h

/-- C2 (amended): for simple-format shapes the claim holds — a match
requires string `bucket` and string `key` under the pointer-key field, so
missing or non-string fields yield no match (and parsing is total, never
throwing).  For extended shapes, however, an `@class` equal to the pointer
class tag alone produces a match, for the bare-object receiver and for the
1-element-array receiver alike: the `s3BucketName`/`s3Key` fields are
copied unvalidated (possibly undefined or non-string). -/
theorem c2_malformed_pointer (pk : String) (parsed : Json)
    (p : NormalizedPointer) (kvs : List (String × Json))
    (hs : parseSimpleFormat pk parsed = some p)
    (hc : jLookup kvs "@class" = some (.str s3PointerClassTag)) :
    (∃ inner b k, jsGetPropTotal parsed pk = some (.obj inner)
      ∧ jLookup inner "bucket" = some (.str b)
      ∧ jLookup inner "key" = some (.str k)
      ∧ p = ⟨some (.str b), some (.str k)⟩)
    ∧ parseS3Pointer .auto pk (some (.obj kvs))
        = some ⟨jLookup kvs "s3BucketName", jLookup kvs "s3Key"⟩
    ∧ parseS3Pointer .auto pk (some (.arr [.obj kvs]))
        = some ⟨jLookup kvs "s3BucketName", jLookup kvs "s3Key"⟩ := by
  refine ⟨parseSimpleFormat_sound pk parsed p hs, ?_, ?_⟩
  · unfold parseS3Pointer parseAwsExtendedFormat
    simp only [show (S3PointerFormat.auto = .awsExtended ∨ S3PointerFormat.auto = .auto)
      = True by simp, if_true]
    simp [hc, bind, Except.bind, pure, Except.pure]
  · unfold parseS3Pointer parseAwsExtendedFormat
    simp only [show (S3PointerFormat.auto = .awsExtended ∨ S3PointerFormat.auto = .auto)
      = True by simp, if_true]
    simp [jsGetProp, hc, bind, Except.bind, pure, Except.pure]

/-- C2 witness: the soundness half applied to a well-formed simple pointer,
and the unvalidated-extended half applied to a tag-only bare object and to
its 1-element-array wrapping. -/
theorem c2_malformed_pointer_witness :
    (∃ inner b k,
      jsGetPropTotal
          (Json.obj [("__s3pointer",
            Json.obj [("bucket", Json.str "B"), ("key", Json.str "K")])])
          "__s3pointer"
        = some (.obj inner)
      ∧ jLookup inner "bucket" = some (.str b)
      ∧ jLookup inner "key" = some (.str k)
      ∧ (⟨some (Json.str "B"), some (Json.str "K")⟩ : NormalizedPointer)
          = ⟨some (.str b), some (.str k)⟩)
    ∧ parseS3Pointer .auto "__s3pointer"
        (some (.obj [("@class", Json.str s3PointerClassTag)]))
      = some ⟨jLookup [("@class", Json.str s3PointerClassTag)] "s3BucketName",
              jLookup [("@class", Json.str s3PointerClassTag)] "s3Key"⟩
    ∧ parseS3Pointer .auto "__s3pointer"
        (some (.arr [.obj [("@class", Json.str s3PointerClassTag)]]))
      = some ⟨jLookup [("@class", Json.str s3PointerClassTag)] "s3BucketName",
              jLookup [("@class", Json.str s3PointerClassTag)] "s3Key"⟩ :=
  c2_malformed_pointer "__s3pointer"
    (Json.obj [("__s3pointer",
      Json.obj [("bucket", Json.str "B"), ("key", Json.str "K")])])
    ⟨some (Json.str "B"), some (Json.str "K")⟩
    [("@class", Json.str s3PointerClassTag)] rfl rfl

/-! ## Claim C5: buildPointer/parsePointer round-trip -/

/-- C5: for every bucket, key, pointer-key configuration and supported
format mode, the pointer built by `createPointerMessage` is recognised —
`isPointer` is true and `parsePointer` yields exactly the bucket and key
(the extended-array format in aws-extended mode, the simple format under
the configured pointer-key field otherwise). -/
theorem c5_pointer_roundtrip (fmt : S3PointerFormat) (pk bucket key : String) :
    parseS3Pointer fmt pk (some (createPointerMessageAst fmt pk bucket key))
      = some ⟨some (.str bucket), some (.str key)⟩
    ∧ isS3Pointer fmt pk (some (createPointerMessageAst fmt pk bucket key)) = true := by
  have main : parseS3Pointer fmt pk (some (createPointerMessageAst fmt pk bucket key))
      = some ⟨some (.str bucket), some (.str key)⟩ := by
    cases fmt with
    | awsExtended => rfl
    | simple =>
        simp [parseS3Pointer, createPointerMessageAst, parseSimpleFormat,
          parseSimpleFormat.parseSimpleInner, jLookup]
    | auto =>
        by_cases hpk : pk = "@class"
        · subst hpk
          simp [parseS3Pointer, createPointerMessageAst, parseAwsExtendedFormat,
            parseSimpleFormat, parseSimpleFormat.parseSimpleInner, jLookup,
            bind, Except.bind, pure, Except.pure]
        · simp [parseS3Pointer, createPointerMessageAst, parseAwsExtendedFormat,
            parseSimpleFormat, parseSimpleFormat.parseSimpleInner, jLookup, hpk,
            bind, Except.bind, pure, Except.pure]
  exact ⟨main, by simp [isS3Pointer, main]⟩

/-! ## Claim C10: client patternKey not forwarded -/

/-- C10: a client built with a `patternKey` option but no injected serializer
still serializes the pattern under the default field name `pattern` — the
constructor's `options.serializer ?? new SqsSerializer()` does not forward
`patternKey`, which only takes effect through a caller-supplied serializer. -/
theorem c10_patternKey_not_forwarded (pk : Option String) (p : String)
    (d : Json) (mid : String) :
    ClientSqs.serializerOf ⟨none, pk⟩ = ⟨"pattern"⟩
    ∧ ClientSqs.sendBody ⟨none, pk⟩ p d mid
        = Json.obj [("pattern", Json.str p), ("data", d), ("id", Json.str mid)]
    ∧ (∀ s : SqsSerializer, ClientSqs.serializerOf ⟨some s, pk⟩ = s) :=
  ⟨rfl, rfl, fun _ => rfl⟩

/-! ## Claim C4: byte-size threshold for offload -/

/-- C4: `wrapIfLarge` compares the UTF-8 byte length of the message against
the threshold (245,760 bytes when unconfigured) with strictly-greater: at or
below the threshold the message is returned unchanged with zero S3 calls —
in particular exactly at the threshold; strictly above it, exactly one
`PutObject` uploads the body verbatim under the fresh prefixed key and the
pointer text is returned. -/
theorem c4_wrapIfLarge_threshold :
    (∀ o : S3LargeMessageOptions, o.threshold = none → o.thresholdEff = 245760)
    ∧ (∀ (o : S3LargeMessageOptions) (uuid msg : String),
        msg.utf8ByteSize ≤ o.thresholdEff →
          wrapIfLarge o uuid msg = (msg, []))
    ∧ (∀ (o : S3LargeMessageOptions) (uuid msg : String),
        o.thresholdEff < msg.utf8ByteSize →
          wrapIfLarge o uuid msg
            = (jsonStringify (createPointerMessageAst o.fmtEff o.pkEff o.bucket
                  (o.keyPrefEff ++ uuid)),
               [S3Call.putObject o.bucket (o.keyPrefEff ++ uuid) msg
                  "application/json"]))
    ∧ (∀ (o : S3LargeMessageOptions) (uuid msg : String),
        msg.utf8ByteSize = o.thresholdEff → (wrapIfLarge o uuid msg).2 = [])
    ∧ (∀ (o : S3LargeMessageOptions) (uuid msg : String),
        msg.utf8ByteSize = o.thresholdEff + 1 →
          (wrapIfLarge o uuid msg).2.length = 1) := by
  refine ⟨?_, ?_, ?_, ?_, ?_⟩
  · intro o h
    simp [S3LargeMessageOptions.thresholdEff, h, S3_DEFAULT_THRESHOLD]
  · intro o uuid msg h
    unfold wrapIfLarge
    rw [if_pos h]
  · intro o uuid msg h
    unfold wrapIfLarge
    rw [if_neg (by omega)]
    rfl
  · intro o uuid msg h
    unfold wrapIfLarge
    rw [if_pos (by omega)]
  · intro o uuid msg h
    unfold wrapIfLarge
    rw [if_neg (by omega)]
    rfl

/-- C4 witness: with a 3-byte threshold, the single multi-byte character
message (1 character, 3 UTF-8 bytes) stays inline with zero S3 calls, while
a 4-byte message is uploaded once, verbatim, under the prefixed key. -/
theorem c4_wrapIfLarge_threshold_witness :
    ("日".utf8ByteSize ≤ 3
      ∧ wrapIfLarge ⟨"bkt", some 3, none, none, none⟩ "u1" "日" = ("日", []))
    ∧ (3 < "日a".utf8ByteSize
      ∧ wrapIfLarge ⟨"bkt", some 3, none, none, none⟩ "u1" "日a"
        = (jsonStringify (createPointerMessageAst S3PointerFormat.auto
              S3_POINTER_KEY "bkt" ("sqs-messages/" ++ "u1")),
           [S3Call.putObject "bkt" ("sqs-messages/" ++ "u1") "日a"
              "application/json"])) :=
  ⟨⟨by decide,
    c4_wrapIfLarge_threshold.2.1 ⟨"bkt", some 3, none, none, none⟩ "u1" "日"
      (by decide)⟩,
   ⟨by decide,
    c4_wrapIfLarge_threshold.2.2.1 ⟨"bkt", some 3, none, none, none⟩ "u1" "日a"
      (by decide)⟩⟩

/-! ## Claim C8: pointer unwrap and read errors -/

/-- C8: `unwrapIfPointer` is the identity with zero store calls whenever
`parsePointer` yields no match; on a pointer it performs exactly one
download at the pointer's bucket/key — an underlying store error propagates
unmodified, a missing or empty downloaded body fails with the dedicated
read error naming the offending key, and a non-empty body is returned. -/
theorem c8_unwrapIfPointer (o : S3LargeMessageOptions)
    (s3get : Option Json → Option Json → S3GetResult) (m : StrWithParse) :
    (parseS3Pointer o.fmtEff o.pkEff m.parse = none →
        unwrapIfPointer o s3get m = (.ok m.s, []))
    ∧ (∀ p e, parseS3Pointer o.fmtEff o.pkEff m.parse = some p →
        s3get p.bucket p.key = .failure e →
        unwrapIfPointer o s3get m
          = (.error (.storeError e), [S3Call.getObject p.bucket p.key]))
    ∧ (∀ p, parseS3Pointer o.fmtEff o.pkEff m.parse = some p →
        (s3get p.bucket p.key = .success none
          ∨ s3get p.bucket p.key = .success (some "")) →
        unwrapIfPointer o s3get m
          = (.error (.readError p.key), [S3Call.getObject p.bucket p.key]))
    ∧ (∀ p b, parseS3Pointer o.fmtEff o.pkEff m.parse = some p →
        s3get p.bucket p.key = .success (some b) → b ≠ "" →
        unwrapIfPointer o s3get m
          = (.ok b, [S3Call.getObject p.bucket p.key])) := by
  refine ⟨?_, ?_, ?_, ?_⟩
  · intro h
    unfold unwrapIfPointer
    rw [h]
  · intro p e hp hs
    unfold unwrapIfPointer
    rw [hp]
    dsimp only
    rw [hs]
  · intro p hp hs
    unfold unwrapIfPointer
    rw [hp]
    dsimp only
    rcases hs with hs | hs
    · rw [hs]
    · rw [hs]
      dsimp only
      rw [if_pos rfl]
  · intro p b hp hs hb
    unfold unwrapIfPointer
    rw [hp]
    dsimp only
    rw [hs]
    dsimp only
    rw [if_neg hb]

/-- C8 witness: a plain body passes through untouched with no S3 call; a
well-formed simple pointer is downloaded once — a non-empty object body is
returned, a store failure propagates, and a missing body raises the read
error naming the key. -/
theorem c8_unwrapIfPointer_witness :
    (unwrapIfPointer ⟨"bkt", none, none, none, none⟩
        (fun _ _ => S3GetResult.success (some "payload"))
        ⟨"hello world", none⟩
      = (.ok "hello world", []))
    ∧ (unwrapIfPointer ⟨"bkt", none, none, none, none⟩
        (fun _ _ => S3GetResult.success (some "payload"))
        ⟨"(pointer text)",
          some (Json.obj [("__s3pointer",
            Json.obj [("bucket", Json.str "B"), ("key", Json.str "K")])])⟩
      = (.ok "payload",
         [S3Call.getObject (some (Json.str "B")) (some (Json.str "K"))]))
    ∧ (unwrapIfPointer ⟨"bkt", none, none, none, none⟩
        (fun _ _ => S3GetResult.failure "AccessDenied")
        ⟨"(pointer text)",
          some (Json.obj [("__s3pointer",
            Json.obj [("bucket", Json.str "B"), ("key", Json.str "K")])])⟩
      = (.error (.storeError "AccessDenied"),
         [S3Call.getObject (some (Json.str "B")) (some (Json.str "K"))]))
    ∧ (unwrapIfPointer ⟨"bkt", none, none, none, none⟩
        (fun _ _ => S3GetResult.success none)
        ⟨"(pointer text)",
          some (Json.obj [("__s3pointer",
            Json.obj [("bucket", Json.str "B"), ("key", Json.str "K")])])⟩
      = (.error (.readError (some (Json.str "K"))),
         [S3Call.getObject (some (Json.str "B")) (some (Json.str "K"))])) :=
  ⟨(c8_unwrapIfPointer _ _ _).1 rfl,
   (c8_unwrapIfPointer _ _ _).2.2.2 ⟨some (Json.str "B"), some (Json.str "K")⟩
     "payload" rfl rfl (by decide),
   (c8_unwrapIfPointer _ _ _).2.1 ⟨some (Json.str "B"), some (Json.str "K")⟩
     "AccessDenied" rfl rfl,
   (c8_unwrapIfPointer _ _ _).2.2.1 ⟨some (Json.str "B"), some (Json.str "K")⟩
     rfl (Or.inl rfl)⟩

/-! ## Claim C6: in-flight counter balance -/

/-- The try-block emits one of three event shapes: nothing (an error path or
a path cut short), the no-handler warning, or the success metrics — never a
counter event. -/
theorem handleMessageTry_trace_cases (cfg : ServerCfg) (env : StepEnv)
    (body : String) :
    (handleMessageTry cfg env body).2 = []
    ∨ (∃ s, (handleMessageTry cfg env body).2 = [Ev.warnLog s])
    ∨ (handleMessageTry cfg env body).2
        = [Ev.metricProcessedSuccess, Ev.metricDurationSuccess] := by
  unfold handleMessageTry
  cases hu : unwrapStep cfg env body with
  | error e => simp
  | ok u =>
      cases hd : env.deserResult with
      | error e => simp
      | ok dm =>
          cases hl : env.lookup dm.pattern with
          | none => simp [hl]
          | some h =>
              cases hr : h.result with
              | error e => simp [hl, hr]
              | ok v => simp [hl, hr]

/-- `handleMessage` wraps the try-block outcome: on success the counter
increment and decrement bracket the try-trace; on an error the catch-block
events (error log, failure metrics) precede the decrement and the original
error is re-thrown. -/
theorem handleMessage_shape (cfg : ServerCfg) (env : StepEnv) (body : String) :
    (∃ tr, handleMessageTry cfg env body = (.ok (), tr)
      ∧ handleMessage cfg env body = (.ok (), .incActive :: (tr ++ [.decActive])))
    ∨ (∃ e tr, handleMessageTry cfg env body = (.error e, tr)
      ∧ handleMessage cfg env body
          = (.error e,
             .incActive :: (tr ++ [.logErrorStack e, .metricProcessedError,
               .metricDurationError, .decActive]))) := by
  unfold handleMessage
  rcases h : handleMessageTry cfg env body with ⟨r, tr⟩
  cases r with
  | ok u =>
      cases u
      exact Or.inl ⟨tr, rfl, rfl⟩
  | error e =>
      exact Or.inr ⟨e, tr, rfl, rfl⟩

/-- C6: every `handleMessage` invocation increments the in-flight counter
exactly once, first, and decrements it exactly once, last — on the success
path and on every failure path — and on an exception it logs the error with
its stack, records the failure metrics, and re-throws the original error of
the try-block. -/
theorem c6_inflight_balance (cfg : ServerCfg) (env : StepEnv) (body : String) :
    ((handleMessage cfg env body).2.count Ev.incActive = 1)
    ∧ ((handleMessage cfg env body).2.count Ev.decActive = 1)
    ∧ ((handleMessage cfg env body).2.head? = some Ev.incActive)
    ∧ ((handleMessage cfg env body).2.getLast? = some Ev.decActive)
    ∧ (∀ e, (handleMessage cfg env body).1 = .error e →
        (handleMessageTry cfg env body).1 = .error e
        ∧ Ev.logErrorStack e ∈ (handleMessage cfg env body).2
        ∧ Ev.metricProcessedError ∈ (handleMessage cfg env body).2
        ∧ Ev.metricDurationError ∈ (handleMessage cfg env body).2) := by
  rcases handleMessage_shape cfg env body with ⟨tr, htry, hmsg⟩ | ⟨e, tr, htry, hmsg⟩ <;>
    rcases handleMessageTry_trace_cases cfg env body with htr | ⟨s, htr⟩ | htr <;>
      rw [htry] at htr <;> simp only at htr <;> subst htr <;>
        rw [hmsg] <;> simp [List.count_cons, List.getLast?]
  all_goals rw [htry]

/-- Step environment for the C6 witness: decoding succeeds and the handler
found for the pattern throws. -/
def envC6 : StepEnv :=
  ⟨.ok "", .ok ⟨Json.str "X", Json.null, none⟩,
   fun _ => some ⟨true, .error "boom"⟩⟩

/-- C6 witness: on a concrete failing dispatch the balance and error-path
properties evaluate as claimed. -/
theorem c6_inflight_balance_witness :
    ((handleMessage ⟨false⟩ envC6 "b").2.count Ev.incActive = 1)
    ∧ ((handleMessage ⟨false⟩ envC6 "b").2.count Ev.decActive = 1)
    ∧ ((handleMessage ⟨false⟩ envC6 "b").1 = .error "boom"
        → (handleMessageTry ⟨false⟩ envC6 "b").1 = .error "boom"
          ∧ Ev.logErrorStack "boom" ∈ (handleMessage ⟨false⟩ envC6 "b").2
          ∧ Ev.metricProcessedError ∈ (handleMessage ⟨false⟩ envC6 "b").2
          ∧ Ev.metricDurationError ∈ (handleMessage ⟨false⟩ envC6 "b").2)
    ∧ (handleMessage ⟨false⟩ envC6 "b").1 = .error "boom" :=
  ⟨(c6_inflight_balance ⟨false⟩ envC6 "b").1,
   (c6_inflight_balance ⟨false⟩ envC6 "b").2.1,
   (c6_inflight_balance ⟨false⟩ envC6 "b").2.2.2.2 "boom",
   rfl⟩

/-! ## Claim C9: missing handler is not a failure -/

/-- C9: when the decoded pattern has no registered handler, per-message
processing completes without error — a warning consisting of the fixed
no-handler message plus the (JSON-stringified) pattern is logged, the
counter is balanced, and no error is thrown, so the consumer treats the
message as successfully processed. -/
theorem c9_missing_handler (cfg : ServerCfg) (env : StepEnv) (body : String)
    (dm : Envelope) (u : String)
    (hu : unwrapStep cfg env body = .ok u)
    (hd : env.deserResult = .ok dm)
    (hl : env.lookup dm.pattern = none) :
    handleMessage cfg env body
      = (.ok (), [.incActive, .warnLog (noHandlerWarn dm.pattern), .decActive])
    ∧ noHandlerWarn dm.pattern
        = NO_EVENT_HANDLER ++ " Pattern: " ++ jsonStringify dm.pattern := by
  refine ⟨?_, rfl⟩
  unfold handleMessage handleMessageTry
  rw [hu]
  dsimp only
  rw [hd]
  dsimp only
  rw [hl]
  rfl

/-- Step environment for the C9 witness: decoding yields pattern GHOST and
the registry is empty. -/
def envC9 : StepEnv :=
  ⟨.ok "", .ok ⟨Json.str "GHOST", Json.null, none⟩, fun _ => none⟩

/-- C9 witness: the no-handler path at a concrete message. -/
theorem c9_missing_handler_witness :
    handleMessage ⟨false⟩ envC9 "b"
      = (.ok (), [Ev.incActive, Ev.warnLog (noHandlerWarn (Json.str "GHOST")),
                  Ev.decActive]) :=
  (c9_missing_handler ⟨false⟩ envC9 "b" ⟨Json.str "GHOST", Json.null, none⟩
    "b" rfl rfl rfl).1

/-! ## Claim C3: shutdown ordering and timeout -/

/-- C3 (counterexample): with one message permanently in flight and a 300 ms
shutdown timeout, `close` sleeps three times and logs the timeout warning
before stopping the consumer — the consumer keeps polling during the whole
drain wait, so the claimed stop-then-wait ordering is false: the first event
is a sleep and the stop comes only after the drain loop. -/
theorem c3_close_ordering_cex :
    close (fun _ => 1) (some 300) true
      = [Ev.sleep, Ev.sleep, Ev.sleep, Ev.warnTimeout 1, Ev.stopConsumer,
         Ev.logClosed]
    ∧ ¬ stopPrecedesSleeps (close (fun _ => 1) (some 300) true) := by
  refine ⟨rfl, ?_⟩
  intro h
  have h40 := h 4 0 rfl rfl
  omega

/-- Exact description of the drain loop: with enough fuel it performs `k`
100 ms sleeps, stops as soon as the counter reaches zero or the timeout
elapses, and every iteration it took was justified by a positive counter
within the timeout. -/
theorem closeLoop_spec (active : Nat → Nat) (timeout : Nat) :
    ∀ fuel elapsed, timeout ≤ elapsed + 100 * fuel →
      ∃ k, closeLoop active timeout fuel elapsed
            = (List.replicate k Ev.sleep, elapsed + 100 * k)
        ∧ (active (elapsed + 100 * k) = 0 ∨ timeout ≤ elapsed + 100 * k)
        ∧ (∀ i < k, 0 < active (elapsed + 100 * i) ∧ elapsed + 100 * i < timeout) := by
  intro fuel
  induction fuel with
  | zero =>
      intro e h
      refine ⟨0, by simp [closeLoop], Or.inr (by omega), by intro i hi; omega⟩
  | succ n ih =>
      intro e h
      by_cases hc : 0 < active e ∧ e < timeout
      · obtain ⟨k, h1, h2, h3⟩ := ih (e + 100) (by omega)
        refine ⟨k + 1, ?_, ?_, ?_⟩
        · have hstep : closeLoop active timeout (n + 1) e
              = (Ev.sleep :: (closeLoop active timeout n (e + 100)).1,
                 (closeLoop active timeout n (e + 100)).2) := by
            simp [closeLoop, hc]
          rw [hstep, h1]
          simp only [Prod.mk.injEq, List.replicate_succ]
          refine ⟨by simp, by omega⟩
        · have : e + 100 + 100 * k = e + 100 * (k + 1) := by omega
          rw [this] at h2
          exact h2
        · intro i hi
          cases i with
          | zero => simpa using hc
          | succ m =>
              have := h3 m (by omega)
              constructor
              · have harith : e + 100 + 100 * m = e + 100 * (m + 1) := by omega
                rw [harith] at this
                exact this.1
              · have harith : e + 100 + 100 * m = e + 100 * (m + 1) := by omega
                rw [harith] at this
                exact this.2
      · refine ⟨0, by simp [closeLoop, hc], ?_, by intro i hi; omega⟩
        rcases Nat.eq_zero_or_pos (active e) with ha | ha
        · exact Or.inl ha
        · right
          have hnl : ¬ e < timeout := fun hlt => hc ⟨ha, hlt⟩
          omega

/-- C3 (amended): `close` first waits for the in-flight counter to reach
zero — polling every 100 ms, up to the configured shutdown timeout
(30,000 ms when unconfigured) —, logs the timeout warning with the
remaining count when messages are still in flight, and only then stops the
consumer, always returning: the trace is `k` sleeps, an optional warning,
the consumer stop and the close log, where the wait ended because the
counter drained or the timeout elapsed and every sleep was justified. -/
theorem c3_close_graceful (active : Nat → Nat) (topt : Option Nat) :
    ∃ k,
      close active topt true
        = List.replicate k Ev.sleep
            ++ (if 0 < active (100 * k) then [Ev.warnTimeout (active (100 * k))]
                else [])
            ++ [Ev.stopConsumer, Ev.logClosed]
      ∧ (active (100 * k) = 0 ∨ topt.getD 30000 ≤ 100 * k)
      ∧ (∀ i < k, 0 < active (100 * i) ∧ 100 * i < topt.getD 30000)
      ∧ (topt = none → topt.getD 30000 = 30000) := by
  have hfuel : topt.getD 30000 ≤ 0 + 100 * (topt.getD 30000 / 100 + 1) := by
    have h1 := Nat.div_add_mod (topt.getD 30000) 100
    have h2 := Nat.mod_lt (topt.getD 30000) (y := 100) (by norm_num)
    omega
  obtain ⟨k, h1, h2, h3⟩ :=
    closeLoop_spec active (topt.getD 30000) (topt.getD 30000 / 100 + 1) 0 hfuel
  refine ⟨k, ?_, by simpa using h2, by simpa using h3, by rintro rfl; rfl⟩
  unfold close
  simp only [h1]
  simp [List.append_assoc]

/-- C3 witness: with nothing in flight, `close` performs no sleep, logs no
warning, and immediately stops the consumer and logs the close. -/
theorem c3_close_graceful_witness :
    close (fun _ => 0) (some 100) true = [Ev.stopConsumer, Ev.logClosed] := by
  obtain ⟨k, h1, h2, h3, h4⟩ := c3_close_graceful (fun _ => 0) (some 100)
  have hk : k = 0 := by
    by_contra hne
    have := (h3 0 (Nat.pos_of_ne_zero hne)).1
    simp at this
  subst hk
  simpa using h1

/-! ## Claim C7: batch emission -/

/-- Concatenating the chunks gives back the original list. -/
theorem chunkGo_flatten {α : Type} :
    ∀ (fuel : Nat) (l : List α), l.length ≤ fuel →
      (chunkGo fuel l).flatten = l := by
  intro fuel
  induction fuel with
  | zero =>
      intro l h
      cases l with
      | nil => rfl
      | cons x xs => simp at h
  | succ n ih =>
      intro l h
      cases l with
      | nil => rfl
      | cons x xs =>
          show ((x :: xs).take 10 :: chunkGo n ((x :: xs).drop 10)).flatten
            = x :: xs
          rw [List.flatten_cons, ih _ (by simp at h ⊢; omega)]
          exact List.take_append_drop 10 (x :: xs)

/-- All-successful chunk submission concatenates the per-element results in
input order. -/
theorem emitBatch_go_ok_map {M R E : Type} (f : M → R) :
    ∀ cs : List (List M),
      emitBatch.go (E := E) (fun c => .ok (c.map f)) cs
        = .ok (cs.flatten.map f) := by
  intro cs
  induction cs with
  | nil => rfl
  | cons c cs ih =>
      simp [emitBatch.go, ih, bind, Except.bind]

/-- The first failing chunk aborts the whole batch with its error. -/
theorem emitBatch_go_error {M R E : Type} (send : List M → Except E (List R)) :
    ∀ (cs : List (List M)) (i : Nat) (c : List M) (e : E),
      cs.get? i = some c → send c = .error e →
      (∀ j cj, j < i → cs.get? j = some cj → ∃ r, send cj = .ok r) →
      emitBatch.go send cs = .error e := by
  intro cs
  induction cs with
  | nil => intro i c e h _ _; simp at h
  | cons c0 cs ih =>
      intro i c e hget hsend hpre
      cases i with
      | zero =>
          simp only [List.get?] at hget
          obtain rfl : c0 = c := by injection hget
          simp [emitBatch.go, hsend, bind, Except.bind]
      | succ i =>
          obtain ⟨r0, hr0⟩ := hpre 0 c0 (Nat.succ_pos i) rfl
          have hrest : emitBatch.go send cs = .error e :=
            ih i c e (by simpa using hget) hsend
              (fun j cj hj hg => hpre (j + 1) cj (by omega) (by simpa using hg))
          simp [emitBatch.go, hr0, hrest, bind, Except.bind]

/-- When every chunk submission succeeds, the attempted calls are exactly the
chunks. -/
theorem emitBatchCalls_ok {M R E : Type} (send : List M → Except E (List R))
    (hok : ∀ c, ∃ r, send c = .ok r) :
    ∀ msgs : List M, emitBatchCalls send msgs = chunk10 msgs := by
  have hgo : ∀ cs : List (List M), emitBatchCalls.go send cs = cs := by
    intro cs
    induction cs with
    | nil => rfl
    | cons c cs ih =>
        obtain ⟨r, hr⟩ := hok c
        simp [emitBatchCalls.go, hr, ih]
  intro msgs
  simp [emitBatchCalls, hgo]

/-- C7: `emitBatch` partitions the outbound list into chunks of 10 — a
15-message list yields exactly two underlying batch calls of sizes 10 and 5 —
submits each chunk as one batch call, returns the results concatenated in
input order (15 in, 15 out, order preserved), makes zero calls and returns
an empty result on an empty list, and aborts with the first failing chunk's
error. -/
theorem c7_emitBatch :
    (∀ (M : Type) (msgs : List M), msgs.length = 15 →
        (chunk10 msgs).map List.length = [10, 5])
    ∧ (∀ (M R E : Type) (f : M → R) (msgs : List M),
        emitBatch (E := E) (fun c => .ok (c.map f)) msgs = .ok (msgs.map f))
    ∧ (∀ (M R E : Type) (send : List M → Except E (List R)),
        chunk10 ([] : List M) = []
        ∧ emitBatch send [] = .ok []
        ∧ emitBatchCalls send [] = [])
    ∧ (∀ (M R E : Type) (send : List M → Except E (List R)),
        (∀ c, ∃ r, send c = .ok r) →
        ∀ msgs : List M, emitBatchCalls send msgs = chunk10 msgs)
    ∧ (∀ (M R E : Type) (send : List M → Except E (List R))
        (msgs : List M) (i : Nat) (c : List M) (e : E),
        (chunk10 msgs).get? i = some c → send c = .error e →
        (∀ j cj, j < i → (chunk10 msgs).get? j = some cj → ∃ r, send cj = .ok r) →
        emitBatch send msgs = .error e) := by
  refine ⟨?_, ?_, ?_, ?_, ?_⟩
  · intro M msgs h
    unfold chunk10
    rw [h]
    cases msgs with
    | nil => simp at h
    | cons x xs =>
        have hlen5 : (List.drop 10 (x :: xs)).length = 5 := by
          simp only [List.length_drop, h]
        show (List.map List.length
          (List.take 10 (x :: xs) :: chunkGo 14 (List.drop 10 (x :: xs))))
            = [10, 5]
        cases hdrop : List.drop 10 (x :: xs) with
        | nil => rw [hdrop] at hlen5; simp at hlen5
        | cons y ys =>
            rw [hdrop] at hlen5
            show (List.map List.length
              (List.take 10 (x :: xs) :: List.take 10 (y :: ys)
                :: chunkGo 13 (List.drop 10 (y :: ys)))) = [10, 5]
            have hys : List.drop 10 (y :: ys) = [] := by
              apply List.drop_eq_nil_of_le
              omega
            rw [hys]
            show ([List.take 10 (x :: xs), List.take 10 (y :: ys)].map
              List.length) = [10, 5]
            simp only [List.map_cons, List.map_nil, List.length_take]
            have hx : (x :: xs).length = 15 := h
            rw [List.cons.injEq, List.cons.injEq]
            refine ⟨by omega, by omega, rfl⟩
  · intro M R E f msgs
    unfold emitBatch
    rw [emitBatch_go_ok_map f (chunk10 msgs)]
    unfold chunk10
    rw [chunkGo_flatten msgs.length msgs (le_refl _)]
  · intro M R E send
    exact ⟨rfl, rfl, rfl⟩
  · intro M R E send hok msgs
    exact emitBatchCalls_ok send hok msgs
  · intro M R E send msgs i c e hget hsend hpre
    exact emitBatch_go_error send (chunk10 msgs) i c e hget hsend hpre

/-- C7 witness: fifteen concrete messages are split 10 + 5 and mapped in
order; a failing first chunk aborts with its error; the empty list makes no
call. -/
theorem c7_emitBatch_witness :
    ((chunk10 (List.range 15)).map List.length = [10, 5])
    ∧ (emitBatch (E := Unit) (fun c => .ok (c.map (fun n => n + 1)))
        (List.range 15) = .ok ((List.range 15).map (fun n => n + 1)))
    ∧ (emitBatch (fun _ : List Nat => (.error "fail" : Except String (List Nat)))
        [1, 2, 3] = .error "fail")
    ∧ (emitBatch (fun c : List Nat => (.ok c : Except String (List Nat))) []
        = .ok []) :=
  ⟨c7_emitBatch.1 Nat (List.range 15) (by simp),
   c7_emitBatch.2.1 Nat Nat Unit (fun n => n + 1) (List.range 15),
   c7_emitBatch.2.2.2.2 Nat Nat String _ [1, 2, 3] 0 [1, 2, 3] "fail" rfl rfl
     (fun j cj hj _ => absurd hj (Nat.not_lt_zero j)),
   (c7_emitBatch.2.2.1 Nat Nat String (fun c => .ok c)).2.1⟩
